import Mathlib

/-!
Verification of the Task Management GraphQL service.

This file shallowly embeds the task service (the GraphQL resolvers over the
in-memory `tasks` and `notifications` arrays, plus the PubSub publishes) as
pure Lean functions over an explicit `ServerState`.  Side inputs of the
JavaScript code — `uuidv4()` results, `new Date().toISOString()` timestamps and
the creator id extracted from the request header — are passed as explicit
string parameters.  Event-bus publishes are recorded as an append-only list of
(topic-string, payload) pairs, with topic strings built exactly as the source
builds them (for example "TASK_CREATED_" followed by the team id).

JavaScript truthiness on nullable string values (null / undefined / "" are
falsy) is modelled by `optStrTruthy` on `Option String`, matching the
`if (teamId)`-style guards of the resolvers.
-/

namespace TaskService

/-- Task status enum from the GraphQL schema. -/
inductive TaskStatus where
  | TODO
  | IN_PROGRESS
  | REVIEW
  | COMPLETED
  | CANCELLED
deriving DecidableEq, Repr

/-- Task priority enum from the GraphQL schema. -/
inductive TaskPriority where
  | LOW
  | MEDIUM
  | HIGH
  | URGENT
deriving DecidableEq, Repr

/-- Serialization of a status value, as it appears inside a JavaScript
template literal (the GraphQL enum is represented by its name string). -/
def TaskStatus.toStr : TaskStatus → String
  | .TODO => "TODO"
  | .IN_PROGRESS => "IN_PROGRESS"
  | .REVIEW => "REVIEW"
  | .COMPLETED => "COMPLETED"
  | .CANCELLED => "CANCELLED"

/-- The `Task` object type of the schema.  Nullable fields are `Option`. -/
structure Task where
  id : String
  title : String
  description : Option String
  status : TaskStatus
  priority : TaskPriority
  assignedTo : Option String
  teamId : String
  createdBy : String
  createdAt : String
  updatedAt : String
  dueDate : Option String
deriving DecidableEq, Repr

/-- The `Notification` object type of the schema. -/
structure Notification where
  id : String
  userId : String
  message : String
  type : String
  read : Bool
  createdAt : String
  taskId : Option String
deriving DecidableEq, Repr

/-- `CreateTaskInput` from the schema: title and priority and teamId are
non-null, the rest nullable. -/
structure CreateTaskInput where
  title : String
  description : Option String
  priority : TaskPriority
  assignedTo : Option String
  teamId : String
  dueDate : Option String
deriving DecidableEq, Repr

/-- `UpdateTaskInput` from the schema: every field is optional.  A field is
`none` when the client omitted it; for the nullable-valued fields the payload
is itself an `Option` (a client may send an explicit null).  Spreading the
input over the old task (`{...oldTask, ...input}`) overwrites exactly the
fields that are present. -/
structure UpdateTaskInput where
  title : Option String := none
  description : Option (Option String) := none
  status : Option TaskStatus := none
  priority : Option TaskPriority := none
  assignedTo : Option (Option String) := none
  dueDate : Option (Option String) := none
deriving DecidableEq, Repr

/-- Payload of a PubSub publish, one constructor per subscription root field. -/
inductive Event where
  | taskCreated (t : Task)
  | taskUpdated (t : Task)
  | taskDeleted (id : String)
  | notificationAdded (n : Notification)
deriving DecidableEq, Repr

/-- The mutable module state of the service: the `tasks` and `notifications`
arrays, plus the trace of `pubsub.publish(topic, payload)` calls. -/
structure ServerState where
  tasks : List Task
  notifications : List Notification
  published : List (String × Event)
deriving DecidableEq, Repr

/-- JavaScript truthiness of a nullable string: `null`/`undefined` (here
`none`) and the empty string are falsy. -/
def optStrTruthy (o : Option String) : Bool :=
  decide (o.getD "" ≠ "")

/-- `resolvers.Query.tasks`: starts from all tasks, then applies each filter
whose argument is truthy (`if (teamId) ...` etc.). -/
def tasksQuery (ts : List Task) (teamId assignedTo : Option String)
    (status : Option TaskStatus) : List Task :=
  let f1 := if optStrTruthy teamId then
      ts.filter (fun t => decide (some t.teamId = teamId)) else ts
  let f2 := if optStrTruthy assignedTo then
      f1.filter (fun t => decide (t.assignedTo = assignedTo)) else f1
  if status.isSome then
      f2.filter (fun t => decide (some t.status = status)) else f2

/-- Condition under which `createTask` emits an assignment notification:
`input.assignedTo && input.assignedTo !== createdBy`. -/
def assignNotifCond (assignedTo : Option String) (createdBy : String) : Bool :=
  optStrTruthy assignedTo && decide (assignedTo ≠ some createdBy)

/-- `resolvers.Mutation.createTask`.  `createdBy` is the id parsed from the
request header (defaulting to "1"), `taskId` and `notifId` are the two
`uuidv4()` draws, `now` the ISO timestamp.  The new task is the input spread
into a record whose `status` is forced to TODO; a notification is pushed and
published only under `assignNotifCond`; the new task is always published on
the TASK_CREATED topic of its team. -/
def createTask (s : ServerState) (input : CreateTaskInput)
    (createdBy taskId notifId now : String) : Task × ServerState :=
  let newTask : Task :=
    { id := taskId
      title := input.title
      description := input.description
      status := .TODO
      priority := input.priority
      assignedTo := input.assignedTo
      teamId := input.teamId
      createdBy := createdBy
      createdAt := now
      updatedAt := now
      dueDate := input.dueDate }
  let notifPart : List Notification × List (String × Event) :=
    match input.assignedTo with
    | some a =>
      if a ≠ "" ∧ a ≠ createdBy then
        let notification : Notification :=
          { id := notifId
            userId := a
            message := "You have been assigned a new task: " ++ input.title
            type := "TASK_ASSIGNED"
            read := false
            createdAt := now
            taskId := some newTask.id }
        ([notification], [("NOTIFICATION_ADDED_" ++ a, .notificationAdded notification)])
      else ([], [])
    | none => ([], [])
  (newTask,
    { tasks := s.tasks ++ [newTask]
      notifications := s.notifications ++ notifPart.1
      published := s.published ++ notifPart.2
        ++ [("TASK_CREATED_" ++ input.teamId, .taskCreated newTask)] })

/-- `{...oldTask, ...input, updatedAt: ...}`: fields present in the patch
overwrite, absent fields keep the old value, `updatedAt` is refreshed. -/
def applyPatch (old : Task) (input : UpdateTaskInput) (now : String) : Task :=
  { old with
      title := input.title.getD old.title
      description := input.description.getD old.description
      status := input.status.getD old.status
      priority := input.priority.getD old.priority
      assignedTo := input.assignedTo.getD old.assignedTo
      dueDate := input.dueDate.getD old.dueDate
      updatedAt := now }

/-- `tasks.findIndex` followed by `tasks[taskIndex] = f(old)`: rewrites the
first task carrying the id, returning the old task, the updated task and the
updated list; `none` when no task carries the id. -/
def updateFirst (id : String) (f : Task → Task) :
    List Task → Option (Task × Task × List Task)
  | [] => none
  | t :: ts =>
    if t.id = id then some (t, f t, f t :: ts)
    else match updateFirst id f ts with
      | none => none
      | some (old, upd, ts') => some (old, upd, t :: ts')

/-- Condition under which `updateTask` emits a status-change notification:
`input.status && input.status !== oldTask.status && updatedTask.assignedTo`
(a GraphQL enum value is always a truthy non-empty string). -/
def statusNotifCond (patchStatus : Option TaskStatus) (oldStatus : TaskStatus)
    (updatedAssignedTo : Option String) : Bool :=
  (match patchStatus with
   | some st => decide (st ≠ oldStatus)
   | none => false) && optStrTruthy updatedAssignedTo

/-- The status-change notification pushed by `updateTask`. -/
def statusNotif (upd : Task) (st : TaskStatus) (notifId now a : String) :
    Notification :=
  { id := notifId
    userId := a
    message := "Task \"" ++ upd.title ++ "\" status changed to " ++ st.toStr
    type := "TASK_STATUS_CHANGED"
    read := false
    createdAt := now
    taskId := some upd.id }

/-- `resolvers.Mutation.updateTask`: throws "Task not found" when the id is
unknown (the throw happens before any mutation, so the module state is
returned unchanged); otherwise overwrites the task with the patched record,
possibly pushes and publishes a status-change notification, and always
publishes the updated task on the TASK_UPDATED topic of its team. -/
def updateTask (s : ServerState) (id : String) (input : UpdateTaskInput)
    (notifId now : String) : Except String Task × ServerState :=
  match updateFirst id (fun t => applyPatch t input now) s.tasks with
  | none => (.error "Task not found", s)
  | some (oldTask, updatedTask, tasks') =>
    let notifPart : List Notification × List (String × Event) :=
      match input.status, updatedTask.assignedTo with
      | some st, some a =>
        if st ≠ oldTask.status ∧ a ≠ "" then
          let n := statusNotif updatedTask st notifId now a
          ([n], [("NOTIFICATION_ADDED_" ++ a, .notificationAdded n)])
        else ([], [])
      | _, _ => ([], [])
    (.ok updatedTask,
      { tasks := tasks'
        notifications := s.notifications ++ notifPart.1
        published := s.published ++ notifPart.2
          ++ [("TASK_UPDATED_" ++ updatedTask.teamId, .taskUpdated updatedTask)] })

/-- `tasks.findIndex` followed by `tasks.splice(taskIndex, 1)`: removes the
first task carrying the id, returning it and the remaining list. -/
def removeFirst (id : String) : List Task → Option (Task × List Task)
  | [] => none
  | t :: ts =>
    if t.id = id then some (t, ts)
    else match removeFirst id ts with
      | none => none
      | some (u, ts') => some (u, t :: ts')

/-- `resolvers.Mutation.deleteTask`: returns false when the id is unknown;
otherwise removes the task, keeps exactly the notifications whose `taskId`
differs from the deleted id (`notif.taskId !== id`; a null `taskId` is kept),
and publishes the id on the TASK_DELETED topic of the removed task's team.
The resolver never throws. -/
def deleteTask (s : ServerState) (id : String) : Bool × ServerState :=
  match removeFirst id s.tasks with
  | none => (false, s)
  | some (task, tasks') =>
    (true,
      { tasks := tasks'
        notifications := s.notifications.filter (fun n => decide (n.taskId ≠ some id))
        published := s.published
          ++ [("TASK_DELETED_" ++ task.teamId, .taskDeleted id)] })

/-- `notification.read = true` on the first notification carrying the id
(the object returned by `notifications.find`). -/
def setReadFirst (id : String) : List Notification → List Notification
  | [] => []
  | n :: ns =>
    if n.id = id then { n with read := true } :: ns
    else n :: setReadFirst id ns

/-- `resolvers.Mutation.markNotificationRead`: false when no notification
carries the id; otherwise sets the `read` flag of the found notification and
returns true. -/
def markNotificationRead (s : ServerState) (id : String) : Bool × ServerState :=
  match s.notifications.find? (fun n => decide (n.id = id)) with
  | none => (false, s)
  | some _ => (true, { s with notifications := setReadFirst id s.notifications })

/-- The decoded JWT payload signed by the auth service: id, email, name,
role, teamId (plus expiry, irrelevant to the subscription resolvers). -/
structure IdentityClaim where
  id : String
  email : String
  name : String
  role : String
  teamId : String
deriving DecidableEq, Repr

/-- Error type available to the subscription resolvers.  The spec's taxonomy
names a Forbidden outcome for unauthorized topics; the codomain carries it so
that the spec's statement is expressible, but the source resolvers never
produce it. -/
inductive SubscribeError where
  | forbidden
deriving DecidableEq, Repr

/-- `resolvers.Subscription.notificationAdded.subscribe`: registers
`pubsub.asyncIterator(["NOTIFICATION_ADDED_" + userId])`.  The connection's
identity claim is not consulted. -/
def subscribeNotificationAdded (_claim : Option IdentityClaim)
    (userId : String) : Except SubscribeError (List String) :=
  .ok ["NOTIFICATION_ADDED_" ++ userId]

/-- `resolvers.Subscription.taskCreated.subscribe`: registers
`pubsub.asyncIterator(["TASK_CREATED_" + teamId])` without consulting the
identity claim. -/
def subscribeTaskCreated (_claim : Option IdentityClaim)
    (teamId : String) : Except SubscribeError (List String) :=
  .ok ["TASK_CREATED_" ++ teamId]

/-- `resolvers.Subscription.taskUpdated.subscribe`. -/
def subscribeTaskUpdated (_claim : Option IdentityClaim)
    (teamId : String) : Except SubscribeError (List String) :=
  .ok ["TASK_UPDATED_" ++ teamId]

/-- `resolvers.Subscription.taskDeleted.subscribe`. -/
def subscribeTaskDeleted (_claim : Option IdentityClaim)
    (teamId : String) : Except SubscribeError (List String) :=
  .ok ["TASK_DELETED_" ++ teamId]

/-! ### Concrete fixtures for counterexamples and witnesses -/

/-- The empty module state. -/
def exState0 : ServerState := { tasks := [], notifications := [], published := [] }

/-- A task whose `assignedTo` holds the empty string (a legal GraphQL ID). -/
def exTaskEmptyAssignee : Task :=
  { id := "1", title := "Setup Project Infrastructure", description := none,
    status := .TODO, priority := .HIGH, assignedTo := some "", teamId := "1",
    createdBy := "1", createdAt := "2025-01-01", updatedAt := "2025-01-01",
    dueDate := none }

/-- A task assigned to user "2". -/
def exTaskAssigned : Task :=
  { exTaskEmptyAssignee with assignedTo := some "2" }

/-- State holding only `exTaskEmptyAssignee`. -/
def exStateEmptyAssignee : ServerState :=
  { tasks := [exTaskEmptyAssignee], notifications := [], published := [] }

/-- State holding only `exTaskAssigned`. -/
def exStateAssigned : ServerState :=
  { tasks := [exTaskAssigned], notifications := [], published := [] }

/-- A notification originating from task "1". -/
def exNotifA : Notification :=
  { id := "n1", userId := "2", message := "m1", type := "TASK_ASSIGNED",
    read := false, createdAt := "2025-01-01", taskId := some "1" }

/-- A notification originating from a different task "9". -/
def exNotifB : Notification :=
  { id := "n2", userId := "2", message := "m2", type := "TASK_ASSIGNED",
    read := false, createdAt := "2025-01-01", taskId := some "9" }

/-- State with one task and two notifications, one per originating task. -/
def exStateDel : ServerState :=
  { tasks := [exTaskAssigned], notifications := [exNotifA, exNotifB],
    published := [] }

/-- State with two notifications and no task. -/
def exStateNotifs : ServerState :=
  { tasks := [], notifications := [exNotifA, exNotifB], published := [] }

/-- A decoded identity claim of the seeded regular user. -/
def exClaim : IdentityClaim :=
  { id := "1", email := "user@taskmanager.com", name := "Regular User",
    role := "user", teamId := "1" }

/-- A well-formed create input with no assignee. -/
def exCreateInput : CreateTaskInput :=
  { title := "Write spec", description := none, priority := .HIGH,
    assignedTo := none, teamId := "T1", dueDate := none }

/-- A create input with an empty title. -/
def exEmptyTitleInput : CreateTaskInput :=
  { title := "", description := none, priority := .HIGH,
    assignedTo := none, teamId := "1", dueDate := none }

/-- A create input whose `assignedTo` is present but holds the empty string. -/
def exEmptyAssigneeInput : CreateTaskInput :=
  { title := "T", description := none, priority := .LOW,
    assignedTo := some "", teamId := "1", dueDate := none }

/-- An update patch that only changes the status. -/
def exStatusPatch : UpdateTaskInput := { status := some .IN_PROGRESS }

/-! ### Helper lemmas on the findIndex-style list operations -/

theorem updateFirst_none_iff (id : String) (f : Task → Task) :
    ∀ ts : List Task, updateFirst id f ts = none ↔
      ts.find? (fun t => decide (t.id = id)) = none := by
  intro ts
  induction ts with
  | nil => simp [updateFirst]
  | cons t tl ih =>
    by_cases h : t.id = id
    · rw [List.find?_cons_of_pos _ (by simpa using h)]
      simp [updateFirst, h]
    · rw [List.find?_cons_of_neg _ (by simpa using h)]
      simp only [updateFirst, if_neg h]
      cases hu : updateFirst id f tl with
      | none => simp [ih.mp hu]
      | some x => obtain ⟨o, u, ts₂⟩ := x; simp [← ih, hu]

theorem updateFirst_of_find (id : String) (f : Task → Task) :
    ∀ ts : List Task, ∀ old : Task,
      ts.find? (fun t => decide (t.id = id)) = some old →
      ∃ ts', updateFirst id f ts = some (old, f old, ts') := by
  intro ts
  induction ts with
  | nil => intro old h; simp at h
  | cons t tl ih =>
    intro old h
    by_cases hid : t.id = id
    · rw [List.find?_cons_of_pos _ (by simpa using hid)] at h
      obtain rfl : t = old := by simpa using h
      exact ⟨f t :: tl, by simp [updateFirst, hid]⟩
    · rw [List.find?_cons_of_neg _ (by simpa using hid)] at h
      obtain ⟨ts', hts'⟩ := ih old h
      exact ⟨t :: ts', by simp [updateFirst, hid, hts']⟩

theorem updateFirst_some (id : String) (f : Task → Task) :
    ∀ ts ts' : List Task, ∀ old upd : Task,
      updateFirst id f ts = some (old, upd, ts') →
      ts.find? (fun t => decide (t.id = id)) = some old ∧ upd = f old := by
  intro ts
  induction ts with
  | nil => intro ts' old upd h; simp [updateFirst] at h
  | cons t tl ih =>
    intro ts' old upd h
    by_cases hid : t.id = id
    · simp [updateFirst, hid] at h
      obtain ⟨rfl, rfl, -⟩ := h
      exact ⟨List.find?_cons_of_pos _ (by simpa using hid), rfl⟩
    · simp only [updateFirst, if_neg hid] at h
      cases hu : updateFirst id f tl with
      | none => rw [hu] at h; simp at h
      | some x =>
        obtain ⟨o, u, ts₂⟩ := x
        rw [hu] at h
        simp at h
        obtain ⟨rfl, rfl, -⟩ := h
        obtain ⟨hfind, hupd⟩ := ih _ _ _ hu
        exact ⟨by rw [List.find?_cons_of_neg _ (by simpa using hid)]; exact hfind, hupd⟩

theorem removeFirst_none_of_not_mem (id : String) :
    ∀ ts : List Task, (∀ t ∈ ts, t.id ≠ id) → removeFirst id ts = none := by
  intro ts
  induction ts with
  | nil => intro _; rfl
  | cons t tl ih =>
    intro h
    have ht : t.id ≠ id := h t (List.mem_cons_self t tl)
    simp only [removeFirst, if_neg ht]
    rw [ih (fun u hu => h u (List.mem_cons_of_mem t hu))]

theorem removeFirst_count_one (id : String) :
    ∀ ts : List Task, ts.countP (fun t => decide (t.id = id)) = 1 →
      ∃ t ts', removeFirst id ts = some (t, ts') ∧
        ts.find? (fun u => decide (u.id = id)) = some t ∧
        ∀ u ∈ ts', u.id ≠ id := by
  intro ts
  induction ts with
  | nil => intro h; simp at h
  | cons t tl ih =>
    intro h
    rw [List.countP_cons] at h
    by_cases hid : t.id = id
    · simp [hid] at h
      refine ⟨t, tl, by simp [removeFirst, hid], List.find?_cons_of_pos _ (by simpa using hid), ?_⟩
      intro u hu
      exact h u hu
    · have hc : tl.countP (fun u => decide (u.id = id)) = 1 := by
        simp [hid] at h
        omega
      obtain ⟨u, ts', hrm, hfind, hclean⟩ := ih hc
      refine ⟨u, t :: ts', by simp [removeFirst, hid, hrm], ?_, ?_⟩
      · rw [List.find?_cons_of_neg _ (by simpa using hid)]; exact hfind
      · intro v hv
        rcases List.mem_cons.mp hv with rfl | hv'
        · exact hid
        · exact hclean v hv'

theorem map_setRead_noop (id : String) :
    ∀ ns : List Notification, (∀ m ∈ ns, m.id ≠ id) →
      ns.map (fun m => if m.id = id then { m with read := true } else m) = ns := by
  intro ns
  induction ns with
  | nil => intro _; rfl
  | cons x xs ihx =>
    intro htl
    have hx : x.id ≠ id := htl x (List.mem_cons_self x xs)
    simp only [List.map_cons, if_neg hx]
    rw [ihx (fun m hm => htl m (List.mem_cons_of_mem x hm))]

theorem setReadFirst_eq_map (id : String) :
    ∀ ns : List Notification, (ns.map (fun n => n.id)).Nodup →
      setReadFirst id ns =
        ns.map (fun m => if m.id = id then { m with read := true } else m) := by
  intro ns
  induction ns with
  | nil => intro _; rfl
  | cons n tl ih =>
    intro hnd
    rw [List.map_cons, List.nodup_cons] at hnd
    obtain ⟨hn, hnd'⟩ := hnd
    by_cases hid : n.id = id
    · have htl : ∀ m ∈ tl, m.id ≠ id := by
        intro m hm heq
        exact hn (by rw [hid, ← heq]; exact List.mem_map_of_mem _ hm)
      simp [setReadFirst, hid, map_setRead_noop id tl htl]
    · simp only [setReadFirst, if_neg hid, List.map_cons]
      rw [ih hnd']

/-! ### Claim theorems -/

/-- C1 (counterexample): a connection whose identity claim carries user id "1"
subscribes to the notification topic of user "2", and — not being an admin and
belonging to team "1" — to the task-created topic of team "9".  The claim says
both subscribe requests fail with Forbidden without registering a listener;
the resolvers instead register the topics and return no error. -/
theorem subscribe_no_auth_counterexample :
    exClaim.id ≠ "2" ∧
    subscribeNotificationAdded (some exClaim) "2" = .ok ["NOTIFICATION_ADDED_2"] ∧
    exClaim.role ≠ "admin" ∧ exClaim.teamId ≠ "9" ∧
    subscribeTaskCreated (some exClaim) "9" = .ok ["TASK_CREATED_9"] :=
  ⟨by decide, rfl, by decide, by decide, rfl⟩

/-- C1 (amended): the subscription resolvers perform no authorization at all:
every subscribe request registers the requested topic with the event bus and
never fails with Forbidden, whatever identity claim the connection carries. -/
theorem subscribe_registers_unconditionally (c : Option IdentityClaim)
    (uid tid : String) :
    subscribeNotificationAdded c uid = .ok ["NOTIFICATION_ADDED_" ++ uid] ∧
    subscribeTaskCreated c tid = .ok ["TASK_CREATED_" ++ tid] ∧
    subscribeTaskUpdated c tid = .ok ["TASK_UPDATED_" ++ tid] ∧
    subscribeTaskDeleted c tid = .ok ["TASK_DELETED_" ++ tid] :=
  ⟨rfl, rfl, rfl, rfl⟩

/-- C3 (counterexample): with an empty title the claim demands an InvalidInput
failure leaving the task collection unchanged; `createTask` instead appends a
new task. -/
theorem createTask_empty_title_counterexample :
    exEmptyTitleInput.title = "" ∧
    (createTask exState0 exEmptyTitleInput "1" "t1" "n1" "now").2.tasks.length =
      exState0.tasks.length + 1 :=
  ⟨rfl, rfl⟩

/-- C3 (amended): `createTask` performs no title validation: for every create
input whose title is the empty string it still succeeds, appending exactly the
returned task (with empty title and status TODO) to the task collection. -/
theorem createTask_empty_title_succeeds (s : ServerState)
    (input : CreateTaskInput) (createdBy taskId notifId now : String)
    (h : input.title = "") :
    (createTask s input createdBy taskId notifId now).2.tasks =
      s.tasks ++ [(createTask s input createdBy taskId notifId now).1] ∧
    (createTask s input createdBy taskId notifId now).1.title = "" ∧
    (createTask s input createdBy taskId notifId now).1.status =
      TaskStatus.TODO := by
  refine ⟨rfl, ?_, rfl⟩
  have ht : (createTask s input createdBy taskId notifId now).1.title =
      input.title := rfl
  rw [ht, h]

/-- C3 (witness for the amended theorem). -/
theorem createTask_empty_title_witness :
    (createTask exState0 exEmptyTitleInput "1" "t1" "n1" "now").2.tasks =
      exState0.tasks ++ [(createTask exState0 exEmptyTitleInput "1" "t1" "n1" "now").1] ∧
    (createTask exState0 exEmptyTitleInput "1" "t1" "n1" "now").1.title = "" ∧
    (createTask exState0 exEmptyTitleInput "1" "t1" "n1" "now").1.status =
      TaskStatus.TODO :=
  createTask_empty_title_succeeds exState0 exEmptyTitleInput "1" "t1" "n1" "now" rfl

/-- C4 (counterexample): the input's `assignedTo` is present (the empty
string) and differs from the creator id "1", so the claim demands exactly one
new assignment notification; the resolver's truthiness test
`input.assignedTo && ...` rejects the empty string and creates none. -/
theorem createTask_assign_notif_counterexample :
    exEmptyAssigneeInput.assignedTo.isSome = true ∧
    exEmptyAssigneeInput.assignedTo ≠ some "1" ∧
    (createTask exState0 exEmptyAssigneeInput "1" "t1" "n1" "now").2.notifications =
      exState0.notifications := by
  refine ⟨rfl, by decide, rfl⟩

/-- C4 (amended): `createTask` creates exactly one assignment notification
(targeted at the assignee, carrying the new task's id) and publishes it on the
assignee's notification topic if and only if `assignedTo` is present,
non-empty and differs from `createdBy` (`assignNotifCond`); in every other
case it creates zero notifications.  In all cases the new task is published
on the team's TASK_CREATED topic. -/
theorem createTask_notifications_spec (s : ServerState)
    (input : CreateTaskInput) (createdBy taskId notifId now : String) :
    (createTask s input createdBy taskId notifId now).2.notifications =
      s.notifications ++
        (if assignNotifCond input.assignedTo createdBy then
          [{ id := notifId, userId := input.assignedTo.getD "",
             message := "You have been assigned a new task: " ++ input.title,
             type := "TASK_ASSIGNED", read := false, createdAt := now,
             taskId := some taskId }]
         else []) ∧
    (createTask s input createdBy taskId notifId now).2.published =
      s.published ++
        (if assignNotifCond input.assignedTo createdBy then
          [("NOTIFICATION_ADDED_" ++ input.assignedTo.getD "",
            Event.notificationAdded
              { id := notifId, userId := input.assignedTo.getD "",
                message := "You have been assigned a new task: " ++ input.title,
                type := "TASK_ASSIGNED", read := false, createdAt := now,
                taskId := some taskId })]
         else []) ++
        [("TASK_CREATED_" ++ input.teamId,
          Event.taskCreated (createTask s input createdBy taskId notifId now).1)] := by
  cases ha : input.assignedTo with
  | none => simp [createTask, assignNotifCond, optStrTruthy, ha]
  | some a =>
    by_cases h1 : a = ""
    · simp [createTask, assignNotifCond, optStrTruthy, ha, h1]
    · by_cases h2 : a = createdBy
      · simp [createTask, assignNotifCond, optStrTruthy, ha, h1, h2]
      · simp [createTask, assignNotifCond, optStrTruthy, ha, h1, h2]

/-- C10: in the tasks listing query an empty-string filter argument is falsy,
so it is treated exactly like an omitted filter: every task is returned. -/
theorem tasksQuery_empty_filter_is_no_filter (ts : List Task) :
    tasksQuery ts (some "") none none = ts ∧
    tasksQuery ts none (some "") none = ts ∧
    tasksQuery ts none none none = ts := by
  refine ⟨?_, ?_, ?_⟩ <;> simp [tasksQuery, optStrTruthy]

/-- C2: for every valid create input (non-empty title, a fresh non-empty id
drawn by uuidv4) the returned task has status TODO and a non-empty id
distinct from every existing task id, and it appears in a subsequent tasks
query filtered by its team id. -/
theorem createTask_valid_spec (s : ServerState) (input : CreateTaskInput)
    (createdBy taskId notifId now : String)
    (htitle : input.title ≠ "") (hid : taskId ≠ "")
    (hfresh : ∀ t ∈ s.tasks, t.id ≠ taskId) :
    (createTask s input createdBy taskId notifId now).1.status = TaskStatus.TODO ∧
    (createTask s input createdBy taskId notifId now).1.id ≠ "" ∧
    (∀ t ∈ s.tasks, t.id ≠ (createTask s input createdBy taskId notifId now).1.id) ∧
    (createTask s input createdBy taskId notifId now).1 ∈
      tasksQuery (createTask s input createdBy taskId notifId now).2.tasks
        (some (createTask s input createdBy taskId notifId now).1.teamId)
        none none := by
  have h1 : (createTask s input createdBy taskId notifId now).1.id = taskId := rfl
  refine ⟨rfl, by rw [h1]; exact hid, by rw [h1]; exact hfresh, ?_⟩
  by_cases hteam : input.teamId = ""
  · simp [createTask, tasksQuery, optStrTruthy, hteam]
  · simp [createTask, tasksQuery, optStrTruthy, hteam, List.mem_filter]

/-- C2 (witness). -/
theorem createTask_valid_spec_witness :
    (createTask exState0 exCreateInput "1" "t1" "n1" "now").1.status = TaskStatus.TODO ∧
    (createTask exState0 exCreateInput "1" "t1" "n1" "now").1.id ≠ "" ∧
    (∀ t ∈ exState0.tasks, t.id ≠ (createTask exState0 exCreateInput "1" "t1" "n1" "now").1.id) ∧
    (createTask exState0 exCreateInput "1" "t1" "n1" "now").1 ∈
      tasksQuery (createTask exState0 exCreateInput "1" "t1" "n1" "now").2.tasks
        (some (createTask exState0 exCreateInput "1" "t1" "n1" "now").1.teamId)
        none none :=
  createTask_valid_spec exState0 exCreateInput "1" "t1" "n1" "now"
    (by decide) (by decide) (by simp [exState0])

/-- C5 (counterexample): the task's `assignedTo` is present (the empty
string), the patch's status IN_PROGRESS is present and differs from the
prior status TODO, so the claim demands exactly one status-change
notification; the resolver's truthiness test `updatedTask.assignedTo`
rejects the empty string and creates none. -/
theorem updateTask_status_notif_counterexample :
    exTaskEmptyAssignee.assignedTo.isSome = true ∧
    exStatusPatch.status = some TaskStatus.IN_PROGRESS ∧
    exTaskEmptyAssignee.status = TaskStatus.TODO ∧
    (updateTask exStateEmptyAssignee "1" exStatusPatch "n1" "now").2.notifications =
      exStateEmptyAssignee.notifications := by
  refine ⟨rfl, rfl, rfl, by decide⟩

/-- C5 (amended): for every existing task, if the patch's status equals the
prior status then `updateTask` creates no notification; if the patch's status
is present and differs from the prior status and the updated task's assignee
is present and non-empty, it creates exactly one new notification targeted at
that assignee and publishes it on that assignee's notification topic. -/
theorem updateTask_status_notifications (s : ServerState) (id : String)
    (input : UpdateTaskInput) (notifId now : String) (old : Task)
    (hfind : s.tasks.find? (fun t => decide (t.id = id)) = some old) :
    ∃ upd, (updateTask s id input notifId now).1 = .ok upd ∧
      (input.status = some old.status →
        (updateTask s id input notifId now).2.notifications = s.notifications) ∧
      (∀ st a, input.status = some st → st ≠ old.status →
        upd.assignedTo = some a → a ≠ "" →
        (updateTask s id input notifId now).2.notifications =
          s.notifications ++ [statusNotif upd st notifId now a] ∧
        ("NOTIFICATION_ADDED_" ++ a,
          Event.notificationAdded (statusNotif upd st notifId now a)) ∈
          (updateTask s id input notifId now).2.published) := by
  obtain ⟨ts', hts'⟩ :=
    updateFirst_of_find id (fun t => applyPatch t input now) s.tasks old hfind
  refine ⟨applyPatch old input now, by simp [updateTask, hts'], ?_, ?_⟩
  · intro hst
    cases hassign : (applyPatch old input now).assignedTo with
    | none => simp [updateTask, hts', hst, hassign]
    | some a => simp [updateTask, hts', hst, hassign]
  · intro st a hst hne ha hne'
    simp [updateTask, hts', hst, ha, hne, hne']

/-- C5 (witness for the amended theorem). -/
theorem updateTask_status_notifications_witness :
    ∃ upd, (updateTask exStateAssigned "1" exStatusPatch "n1" "now").1 = .ok upd ∧
      (exStatusPatch.status = some exTaskAssigned.status →
        (updateTask exStateAssigned "1" exStatusPatch "n1" "now").2.notifications =
          exStateAssigned.notifications) ∧
      (∀ st a, exStatusPatch.status = some st → st ≠ exTaskAssigned.status →
        upd.assignedTo = some a → a ≠ "" →
        (updateTask exStateAssigned "1" exStatusPatch "n1" "now").2.notifications =
          exStateAssigned.notifications ++ [statusNotif upd st "n1" "now" a] ∧
        ("NOTIFICATION_ADDED_" ++ a,
          Event.notificationAdded (statusNotif upd st "n1" "now" a)) ∈
          (updateTask exStateAssigned "1" exStatusPatch "n1" "now").2.published) :=
  updateTask_status_notifications exStateAssigned "1" exStatusPatch "n1" "now"
    exTaskAssigned (by decide)

/-- C6: when exactly one task carries the id, the first `deleteTask` returns
true, removes the task, keeps exactly the notifications whose originating
task id differs, and publishes the id on the team's TASK_DELETED topic; the
second call returns false and changes nothing.  (Both calls are total Lean
functions: the resolver never throws.) -/
theorem deleteTask_twice (s : ServerState) (i : String)
    (h : s.tasks.countP (fun t => decide (t.id = i)) = 1) :
    ∃ t, s.tasks.find? (fun u => decide (u.id = i)) = some t ∧
      (deleteTask s i).1 = true ∧
      (∀ u ∈ (deleteTask s i).2.tasks, u.id ≠ i) ∧
      (deleteTask s i).2.notifications =
        s.notifications.filter (fun n => decide (n.taskId ≠ some i)) ∧
      ("TASK_DELETED_" ++ t.teamId, Event.taskDeleted i) ∈
        (deleteTask s i).2.published ∧
      deleteTask (deleteTask s i).2 i = (false, (deleteTask s i).2) := by
  obtain ⟨t, ts', hrm, hfind, hclean⟩ := removeFirst_count_one i s.tasks h
  have h2 : removeFirst i ts' = none := removeFirst_none_of_not_mem i ts' hclean
  refine ⟨t, hfind, by simp [deleteTask, hrm], ?_, by simp [deleteTask, hrm],
    by simp [deleteTask, hrm], by simp [deleteTask, hrm, h2]⟩
  intro u hu
  have htasks : (deleteTask s i).2.tasks = ts' := by simp [deleteTask, hrm]
  rw [htasks] at hu
  exact hclean u hu

/-- C6 (witness). -/
theorem deleteTask_twice_witness :
    (deleteTask exStateDel "1").1 = true ∧
    (deleteTask (deleteTask exStateDel "1").2 "1").1 = false := by
  obtain ⟨t, -, h1, -, -, -, h2⟩ := deleteTask_twice exStateDel "1" (by decide)
  exact ⟨h1, by rw [h2]⟩

/-- C7: `updateTask` on an unknown id throws "Task not found" before any
mutation, leaving the state unchanged; on an existing task it returns the
patched record: each field present in the patch overwrites, each absent field
keeps its prior value, and the updated timestamp is refreshed. -/
theorem updateTask_notFound_and_patch (s : ServerState) (id : String)
    (input : UpdateTaskInput) (notifId now : String) :
    (s.tasks.find? (fun t => decide (t.id = id)) = none →
      updateTask s id input notifId now = (.error "Task not found", s)) ∧
    (∀ old, s.tasks.find? (fun t => decide (t.id = id)) = some old →
      (updateTask s id input notifId now).1 = .ok (applyPatch old input now) ∧
      (applyPatch old input now).title = input.title.getD old.title ∧
      (applyPatch old input now).description = input.description.getD old.description ∧
      (applyPatch old input now).status = input.status.getD old.status ∧
      (applyPatch old input now).priority = input.priority.getD old.priority ∧
      (applyPatch old input now).assignedTo = input.assignedTo.getD old.assignedTo ∧
      (applyPatch old input now).dueDate = input.dueDate.getD old.dueDate ∧
      (applyPatch old input now).updatedAt = now) := by
  constructor
  · intro hnone
    have hu : updateFirst id (fun t => applyPatch t input now) s.tasks = none :=
      (updateFirst_none_iff id _ s.tasks).mpr hnone
    simp [updateTask, hu]
  · intro old hfind
    obtain ⟨ts', hts'⟩ :=
      updateFirst_of_find id (fun t => applyPatch t input now) s.tasks old hfind
    exact ⟨by simp [updateTask, hts'], rfl, rfl, rfl, rfl, rfl, rfl, rfl⟩

/-- C7 (witness): exercises both the unknown-id branch and the patch
branch. -/
theorem updateTask_notFound_and_patch_witness :
    updateTask exStateAssigned "zzz" exStatusPatch "n1" "now" =
      (.error "Task not found", exStateAssigned) ∧
    (updateTask exStateAssigned "1" exStatusPatch "n1" "now").1 =
      .ok (applyPatch exTaskAssigned exStatusPatch "now") :=
  ⟨(updateTask_notFound_and_patch exStateAssigned "zzz" exStatusPatch "n1" "now").1
      (by decide),
   ((updateTask_notFound_and_patch exStateAssigned "1" exStatusPatch "n1" "now").2
      exTaskAssigned (by decide)).1⟩

/-- C8: whenever `updateTask` returns a task, that task keeps the owning team
id, creator id and created timestamp of the stored task it patched: the
update input has no such fields, so no input can change them. -/
theorem updateTask_preserves_immutable_fields (s : ServerState) (id : String)
    (input : UpdateTaskInput) (notifId now : String) (upd : Task)
    (s₂ : ServerState)
    (h : updateTask s id input notifId now = (.ok upd, s₂)) :
    ∃ old, s.tasks.find? (fun t => decide (t.id = id)) = some old ∧
      upd.teamId = old.teamId ∧ upd.createdBy = old.createdBy ∧
      upd.createdAt = old.createdAt := by
  cases hu : updateFirst id (fun t => applyPatch t input now) s.tasks with
  | none => simp [updateTask, hu] at h
  | some x =>
    obtain ⟨old, u, ts'⟩ := x
    obtain ⟨hfind, hupd⟩ := updateFirst_some id _ s.tasks ts' old u hu
    have h1 : (updateTask s id input notifId now).1 = .ok u := by
      simp [updateTask, hu]
    rw [h] at h1
    obtain rfl : u = upd := by simpa using h1.symm
    subst hupd
    exact ⟨old, hfind, rfl, rfl, rfl⟩

/-- C8 (witness). -/
theorem updateTask_preserves_immutable_fields_witness :
    ∃ old, exStateAssigned.tasks.find? (fun t => decide (t.id = "1")) = some old ∧
      (applyPatch exTaskAssigned exStatusPatch "now").teamId = old.teamId ∧
      (applyPatch exTaskAssigned exStatusPatch "now").createdBy = old.createdBy ∧
      (applyPatch exTaskAssigned exStatusPatch "now").createdAt = old.createdAt :=
  updateTask_preserves_immutable_fields exStateAssigned "1" exStatusPatch "n1" "now"
    (applyPatch exTaskAssigned exStatusPatch "now")
    (updateTask exStateAssigned "1" exStatusPatch "n1" "now").2 rfl

/-- C9: `markNotificationRead` on an unknown id returns false and changes
nothing; on an existing id (ids being unique) it returns true and the new
notification list is the old one with exactly the targeted notification's
read flag set — every other field, every other notification, and the task
collection are untouched. -/
theorem markNotificationRead_spec (s : ServerState) (i : String) :
    (s.notifications.find? (fun n => decide (n.id = i)) = none →
      markNotificationRead s i = (false, s)) ∧
    ((s.notifications.map (fun n => n.id)).Nodup →
      ∀ n, s.notifications.find? (fun n => decide (n.id = i)) = some n →
      markNotificationRead s i = (true,
        { s with notifications := (s.notifications.map
            (fun m => if m.id = i then { m with read := true } else m)) })) := by
  constructor
  · intro hnone
    simp [markNotificationRead, hnone]
  · intro hnd n hfind
    simp [markNotificationRead, hfind, setReadFirst_eq_map i s.notifications hnd]

/-- C9 (witness): exercises both the unknown-id branch and the update
branch. -/
theorem markNotificationRead_spec_witness :
    markNotificationRead exStateNotifs "zzz" = (false, exStateNotifs) ∧
    markNotificationRead exStateNotifs "n1" = (true,
      { exStateNotifs with notifications := (exStateNotifs.notifications.map
          (fun m => if m.id = "n1" then { m with read := true } else m)) }) :=
  ⟨(markNotificationRead_spec exStateNotifs "zzz").1 (by decide),
   (markNotificationRead_spec exStateNotifs "n1").2 (by decide) exNotifA (by decide)⟩

end TaskService
